import Mathlib

/-!
Shallow embedding of the sentribot buy/sell trade-detection and
deduplication pipeline (src/buy_tracker.py, src/sell_tracker.py).

Conventions of the embedding:
* Python `dict` state is an association list with dict semantics
  (`insertA` removes the old binding, lookups find the unique binding).
* Python truthiness on optional strings/numbers is made explicit
  (`strTruthy`, `·.getD 0`): `None`, `""` and `0` are falsy.
* Raw token amounts (`uiTokenAmount.amount`, via `int(...)`) are `Int`;
  USD values and scaled token amounts are `ℚ` (Python floats, exact here).
* Network calls are parameters: the already-fetched payloads (pair info,
  trade lists, transaction detail, price-provider results) are passed in,
  and the Telegram sink is a boolean outcome `sendOk` that the handlers
  observe only in the emitted trace, never in their state.
* Each handler returns its updated state together with a trace of
  `Action`s: dedupe-record writes and alert dispatches, in program order.
-/

namespace Sentribot

/-- Association list lookup with Python-dict semantics (unique key). -/
def lookupA {α : Type} (l : List (String × α)) (k : String) : Option α :=
  (l.find? (fun p => p.1 == k)).map (fun p => p.2)

/-- Assignment `d[k] = v`: replace any old binding for `k`. -/
def insertA {α : Type} (l : List (String × α)) (k : String) (v : α) :
    List (String × α) :=
  (k, v) :: l.filter (fun p => !(p.1 == k))

/-- Deletion `del d[k]`. -/
def eraseA {α : Type} (l : List (String × α)) (k : String) :
    List (String × α) :=
  l.filter (fun p => !(p.1 == k))

/-- Python truthiness of an optional string: `None` and `""` are falsy. -/
def strTruthy : Option String → Option String
  | some s => if s = "" then none else some s
  | none => none

/-- Python `a or b` on optional strings. -/
def pyOrS (a b : Option String) : Option String :=
  match strTruthy a with
  | some s => some s
  | none => b

/-- Python `a or b` on optional numbers (`0` is falsy). -/
def pyOrQ (a b : Option ℚ) : Option ℚ :=
  match a with
  | some x => if x = 0 then b else some x
  | none => b

/-- One entry of `preTokenBalances` / `postTokenBalances`.
`amount` is the raw integer amount and `decimals` the scale, both read
off `uiTokenAmount` of the same record. -/
structure TokenBalance where
  mint : String
  owner : Option String
  amount : Int
  decimals : Nat
deriving Repr, DecidableEq

/-- The fields of a streaming notification / fetched transaction that the
decoders read: `meta.preTokenBalances` and `meta.postTokenBalances`. -/
structure TxMeta where
  pre : List TokenBalance
  post : List TokenBalance
deriving Repr, DecidableEq

/-- The `pre_map` lookup of `_delta_for_mint` / `parse_sell`: the raw
pre-amount recorded for `(owner, mint)` (a dict built from the pre list,
so a later record overwrites an earlier one), defaulting to 0. -/
def preAmt (pre : List TokenBalance) (mint : String) (owner : Option String) :
    Int :=
  ((((pre.filter (fun b => b.mint == mint && b.owner == owner)).map
      (fun b => b.amount)).getLast?).getD 0)

/-- Function `_delta_for_mint` (buy_tracker.py): sum of scaled `(post - pre)` of
`base_mint` over the post token balances.  Positive means net credit
(buy), negative net debit (sell). -/
def delta_for_mint (meta : TxMeta) (base_mint : String) : ℚ :=
  (meta.post.filter (fun b => b.mint == base_mint)).foldl
    (fun total b =>
      total +
        ((b.amount : ℚ) - (preAmt meta.pre base_mint b.owner : ℚ)) /
          (10 : ℚ) ^ b.decimals)
    0

/-- Result of `parse_sell` (sell_tracker.py). -/
structure SellDetails where
  seller : Option String
  amount : ℚ
  decimals : Nat
deriving Repr, DecidableEq

/-- The pure core of `parse_sell`: first post record of the mint whose
balance strictly decreased, reported as a sell of the decrease, scaled by
`10 ^ decimals` of that same record. -/
def parseSellMeta (meta : TxMeta) (mint : String) : Option SellDetails :=
  (meta.post.find? (fun b =>
      b.mint == mint && decide (b.amount - preAmt meta.pre mint b.owner < 0))).map
    (fun b =>
      { seller := b.owner
        amount := ((preAmt meta.pre mint b.owner - b.amount : Int) : ℚ) /
          (10 : ℚ) ^ b.decimals
        decimals := b.decimals })

/-- Full `parse_sell` including the `get_transaction` fetch: a missing
transaction yields no details. -/
def parse_sell (tx : Option TxMeta) (mint : String) : Option SellDetails :=
  tx.bind (fun meta => parseSellMeta meta mint)

/-- Constant `DEFAULT_MIN_BUY_USD` (buy_tracker.py). -/
def DEFAULT_MIN_BUY_USD : ℚ := 5

/-- Constant `DEFAULT_WHALE_USD` (sell_tracker.py). -/
def DEFAULT_WHALE_USD : ℚ := 1000

/-- Effective buy threshold:
`float(sub.get("min_buy_usd") or DEFAULT_MIN_BUY_USD)` — unset or stored
zero both fall back to the default (Python `or` on a falsy 0). -/
def effMinBuy (stored : Option ℚ) : ℚ :=
  match stored with
  | some x => if x = 0 then DEFAULT_MIN_BUY_USD else x
  | none => DEFAULT_MIN_BUY_USD

/-- Effective sell threshold:
`float(usd_threshold) if usd_threshold and usd_threshold > 0 else
DEFAULT_WHALE_USD` — unset, zero and negative all fall back. -/
def effSellThr (stored : Option ℚ) : ℚ :=
  match stored with
  | some x => if x ≠ 0 ∧ x > 0 then x else DEFAULT_WHALE_USD
  | none => DEFAULT_WHALE_USD

/-- One `swapInfo` payload of a Helius enhanced swap event. -/
structure SwapEv where
  nativeUsd : Option ℚ
  usdValue : Option ℚ
deriving Repr, DecidableEq

/-- A streaming `transactionNotification` payload, restricted to the
fields the handlers read: the first transaction signature, the top-level
`signature` field, the balance meta, and the enhanced swap events. -/
structure Notif where
  sigHead : Option String
  signature : Option String
  meta : TxMeta
  swapEvents : List SwapEv
deriving Repr, DecidableEq

/-- Transaction id extraction shared by both WS handlers:
`(notif.get("transaction") or {}).get("signatures", [None])[0] or
notif.get("signature")`, followed by `if not txid: return`. -/
def getTxid (n : Notif) : Option String :=
  strTruthy (pyOrS n.sigHead n.signature)

/-- A per-(chat, token) subscription payload (the `sub_payload` dict of
`HeliusWS`): chat, mint and the accumulated settings. -/
structure Sub where
  chat_id : Int
  mint : String
  symbol : Option String
  emoji : Option String
  min_buy_usd : Option ℚ
  price_usd : Option ℚ
  mcap : Option ℚ
  media_file_id : Option String
  socials_json : Option String
deriving Repr, DecidableEq

/-- One row of a DexScreener recent-trades list. -/
structure Trade where
  txId : Option String
  side : Option String
  amountUsd : Option ℚ
  amountToken : Option ℚ
  priceUsd : Option ℚ
deriving Repr, DecidableEq

/-- An observable step of a handler, in program order: a dedupe-state
record (`self.last_txid[key] = txid` and friends) or an alert dispatch
through the sink.  Field `ok` is the delivery outcome of the sink; the buy-path
alert carries no counter-party (`counterparty = none`, the message
hardcodes "Unknown"), the sell path carries the seller. -/
inductive Action where
  | record (key txid : String)
  | dispatch (key txid : String) (usd : ℚ) (amountToken : Option ℚ)
      (counterparty : Option String) (ok : Bool)
deriving Repr, DecidableEq

/-- The dedupe map `HeliusWS.last_txid` (also reused for
`sell_last_seen`): one last-seen transaction id per key. -/
abbrev TxMap : Type := List (String × String)

/-- Scan of the enhanced swap events:
`usd = info.get("nativeUsd") or info.get("usdValue")` on the first event
while `usd` is still `None`. -/
def swapEventsUsd (evs : List SwapEv) : Option ℚ :=
  evs.foldl
    (fun usd ev =>
      match usd with
      | some u => some u
      | none => pyOrQ ev.nativeUsd ev.usdValue)
    none

/-- USD resolution of `_handle_swap_raydium` for a buy of `amountToken`:
enhanced swap events first, then the DexScreener trade matching this
txid, then an estimate from the cached price; `none` when all fail. -/
def resolveUsdRaydium (sub : Sub) (n : Notif) (trades : List Trade)
    (txid : String) (amountToken : ℚ) : Option ℚ :=
  match swapEventsUsd n.swapEvents with
  | some u => some u
  | none =>
    match trades.find? (fun t => t.txId == some txid) with
    | some t => some (t.amountUsd.getD 0)
    | none =>
      let px := sub.price_usd.getD 0
      if px ≠ 0 then some (amountToken * px) else none

/-- Handler `HeliusWS._handle_swap_raydium`: dedupe on `"r:" ++ pair_addr` by
last txid, record the txid, classify by the sign of the base-mint delta
(only buys proceed), resolve USD, apply the effective threshold, then
dispatch at most one alert.  `sendOk` is the sink outcome of
`_send_alert`; it is recorded in the trace but never in the state. -/
def handleSwapRaydium (m : TxMap) (pair_addr : String) (sub : Sub)
    (n : Notif) (trades : List Trade) (sendOk : Bool) :
    TxMap × List Action :=
  match getTxid n with
  | none => (m, [])
  | some txid =>
    let key := "r:" ++ pair_addr
    if lookupA m key = some txid then (m, [])
    else
      let m' := insertA m key txid
      let delta := delta_for_mint n.meta sub.mint
      if delta ≤ 0 then (m', [.record key txid])
      else
        let amountToken := |delta|
        match resolveUsdRaydium sub n trades txid amountToken with
        | none => (m', [.record key txid])
        | some usd =>
          if usd < effMinBuy sub.min_buy_usd then (m', [.record key txid])
          else
            (m', [.record key txid,
                  .dispatch key txid usd (some amountToken) none sendOk])

/-- A price/identity payload as returned by one provider. -/
structure Info where
  symbol : String
  price : ℚ
  mc : ℚ
deriving Repr, DecidableEq

/-- Resolver `fetch_token_info` (sell_tracker.py): try Pump.fun, then
DexScreener, then CoinGecko; each failed or empty provider is skipped;
when all fail, the sentinel `{symbol: "TOKEN", price: 0, mc: 0}`. -/
def fetch_token_info (pumpfun dexscreener coingecko : Option Info) : Info :=
  match pumpfun with
  | some i => i
  | none =>
    match dexscreener with
    | some i => i
    | none =>
      match coingecko with
      | some i => i
      | none => { symbol := "TOKEN", price := 0, mc := 0 }

/-- Resolver `fetch_token_info` (buy_tracker.py): Pump.fun then DexScreener, with
the same zero-price sentinel. -/
def fetchTokenInfoBuy (pumpfun dexscreener : Option Info) : Info :=
  match pumpfun with
  | some i => i
  | none =>
    match dexscreener with
    | some i => i
    | none => { symbol := "TOKEN", price := 0, mc := 0 }

/-- Handler `HeliusWS._handle_buy_pumpfun`: dedupe on `"p:" ++ mint`, record,
require a positive base-mint delta, price from the cached
`sub["price_usd"]` or else from `fetch_token_info` (`info`, cached back
into the sub when nonzero), `usd = amount * px if px else None`, then
threshold and at most one dispatch. -/
def handleBuyPumpfun (m : TxMap) (mint : String) (sub : Sub) (n : Notif)
    (info : Info) (sendOk : Bool) : TxMap × Sub × List Action :=
  match getTxid n with
  | none => (m, sub, [])
  | some txid =>
    let key := "p:" ++ mint
    if lookupA m key = some txid then (m, sub, [])
    else
      let m' := insertA m key txid
      let delta := delta_for_mint n.meta mint
      if delta ≤ 0 then (m', sub, [.record key txid])
      else
        let px0 := sub.price_usd.getD 0
        let px := if px0 ≠ 0 then px0 else info.price
        let sub' :=
          if px0 = 0 ∧ px ≠ 0 then { sub with price_usd := some px } else sub
        if px = 0 then (m', sub', [.record key txid])
        else
          let usd := delta * px
          if usd < effMinBuy sub'.min_buy_usd then
            (m', sub', [.record key txid])
          else
            (m', sub', [.record key txid,
                        .dispatch key txid usd (some delta) none sendOk])

/-- ASCII lowercase of one character, as Python `str.lower` acts on the
ASCII side strings this module compares. -/
def charLower (c : Char) : Char :=
  if 'A' ≤ c ∧ c ≤ 'Z' then Char.ofNat (c.toNat + 32) else c

/-- Python `(s or "").lower()` restricted to ASCII strings. -/
def pyLower (s : String) : String :=
  ⟨s.data.map charLower⟩

/-- The dict `fallback_last_seen`: pair address → last trade txId.  The
stored value itself may be Python `None` (`trades[0].get("txId") or
last_txid` when both are falsy), hence `Option String` values. -/
abbrev FbMap : Type := List (String × Option String)

/-- Read `fallback_last_seen.get(pair_addr)`: absent and stored-`None` are
indistinguishable, as in Python. -/
def fbGet (m : FbMap) (k : String) : Option String :=
  ((m.find? (fun p => p.1 == k)).map (fun p => p.2)).join

/-- The gap-walk of `fallback_poll`: iterate the newest-first trades,
skip entries with a falsy txId, stop at the last-seen txId, collect the
rest (paired with their validated txId). -/
def fallbackCollect : List Trade → Option String → List (String × Trade)
  | [], _ => []
  | t :: ts, last =>
    match strTruthy t.txId with
    | none => fallbackCollect ts last
    | some s => if some s = last then [] else (s, t) :: fallbackCollect ts last

/-- One tracked row as read by `fallback_poll`. -/
structure FallbackRow where
  chat_id : Int
  mint : String
  media_file_id : Option String
  symbol : Option String
  emoji : Option String
  min_buy_usd : Option ℚ
  socials_json : Option String
deriving Repr, DecidableEq

/-- Poller `fallback_poll`, one row and one already-located pair: collect the
gap since the last seen txId, advance the last-seen marker to the head
trade, then alert each collected buy at or above the threshold,
oldest-to-newest.  `sendOk` is again trace-only. -/
def fallbackPollPair (fb : FbMap) (pair_addr : String) (row : FallbackRow)
    (trades : List Trade) (sendOk : Bool) : FbMap × List Action :=
  match trades with
  | [] => (fb, [])
  | t0 :: _ =>
    let last := fbGet fb pair_addr
    let newTrades := (fallbackCollect trades last).reverse
    let fb' := insertA fb pair_addr (pyOrS t0.txId last)
    let threshold := effMinBuy row.min_buy_usd
    let acts := newTrades.filterMap (fun st =>
      if pyLower (st.2.side.getD "") ≠ "buy" then none
      else
        let usd := st.2.amountUsd.getD 0
        if usd < threshold then none
        else
          some (Action.dispatch pair_addr st.1 usd st.2.amountToken none
            sendOk))
    (fb', acts)

/-- Membership in `NATIVE_SOL_MINTS`. -/
def is_native_sol (mint : String) : Bool :=
  mint == "So11111111111111111111111111111111111111112"

/-- One `sell_tracked` row as read by `poll_sells`. -/
structure SellRow where
  chat_id : Int
  mint : String
  media_file_id : Option String
  symbol : Option String
  usd_threshold : Option ℚ
deriving Repr, DecidableEq

/-- One entry of the `getSignaturesForAddress` result. -/
structure SigEntry where
  signature : Option String
deriving Repr, DecidableEq

/-- Poller `poll_sells`, one row of `sell_tracked`: look only at the newest
fetched signature, skip it when it equals the last seen one, otherwise
advance `sell_last_seen` to it, decode that single transaction with
`parse_sell` (`detail` is the `get_transaction` fetch), price it
(`usd = amount * price if price else 0.0`), and alert when the value
reaches the effective whale threshold. -/
def pollSellsRow (seen : TxMap) (row : SellRow) (txs : List SigEntry)
    (detail : String → Option TxMeta) (info : Info) (sendOk : Bool) :
    TxMap × List Action :=
  if is_native_sol row.mint then (seen, [])
  else
    match txs with
    | [] => (seen, [])
    | t0 :: _ =>
      match strTruthy t0.signature with
      | none => (seen, [])
      | some sig =>
        if lookupA seen row.mint = some sig then (seen, [])
        else
          let seen' := insertA seen row.mint sig
          match parse_sell (detail sig) row.mint with
          | none => (seen', [])
          | some d =>
            let price := info.price
            let usd := if price ≠ 0 then d.amount * price else 0
            if usd < effSellThr row.usd_threshold then (seen', [])
            else
              (seen', [.dispatch row.mint sig usd (some d.amount)
                (some ((strTruthy d.seller).getD "?")) sendOk])

/-- A DexScreener pair payload, restricted to the fields the handoff
reads. -/
structure PairInfo where
  pairAddress : Option String
  baseSymbol : Option String
  priceUsd : Option ℚ
  fdv : Option ℚ
deriving Repr, DecidableEq

/-- The two subscription dicts of `HeliusWS`. -/
structure WSSubs where
  r_subs : List (String × Sub)
  p_subs : List (String × Sub)
deriving Repr, DecidableEq

/-- The meta refresh shared by `add_or_update_token` and the handoff
watcher: keep an already-set symbol, else take the symbol of the pair, else
"TOKEN"; overwrite the cached price and market cap from the pair. -/
def refreshFromPair (sub : Sub) (pair : PairInfo) : Sub :=
  { sub with
    symbol := pyOrS (pyOrS sub.symbol pair.baseSymbol) (some "TOKEN")
    price_usd := some (pair.priceUsd.getD 0)
    mcap := some (pair.fdv.getD 0) }

/-- One iteration of `HeliusWS._handoff_to_raydium_when_listed` for
`mint`, given the result `pairRes` of `fetch_primary_pair_for_mint`.
If the mint is no longer Pump.fun-subscribed the watcher exits (no-op);
if no pair (or no pair address) is found yet, this cycle does nothing;
otherwise register the refreshed payload under the pair address in
`r_subs` and delete the Pump.fun subscription. -/
def handoffStep (st : WSSubs) (mint : String) (pairRes : Option PairInfo) :
    WSSubs :=
  match lookupA st.p_subs mint with
  | none => st
  | some sub =>
    match pairRes with
    | none => st
    | some pair =>
      match strTruthy pair.pairAddress with
      | none => st
      | some addr =>
        { r_subs := insertA st.r_subs addr (refreshFromPair sub pair)
          p_subs := eraseA st.p_subs mint }

/-- One row of the `tracked_tokens` table (buy_tracker.py); `active`
has SQL default 0, the other columns default NULL except the seeded
`min_buy_usd`. -/
structure TrackedRow where
  symbol : Option String
  media_file_id : Option String
  emoji : Option String
  total_supply : Option ℚ
  min_buy_usd : Option ℚ
  socials_json : Option String
  active : Int
deriving Repr, DecidableEq

/-- The row created by
`INSERT OR IGNORE INTO tracked_tokens(chat_id, mint, min_buy_usd)
VALUES(?, ?, DEFAULT_MIN_BUY_USD)`. -/
def defaultTrackedRow : TrackedRow :=
  { symbol := none, media_file_id := none, emoji := none,
    total_supply := none, min_buy_usd := some DEFAULT_MIN_BUY_USD,
    socials_json := none, active := 0 }

/-- The keyword arguments of `upsert_token`: for each column, `none`
means the column is not named in the update, `some v` sets it to `v`
(which may itself be NULL for the nullable columns). -/
structure FieldUpdates where
  symbol : Option (Option String) := none
  media_file_id : Option (Option String) := none
  emoji : Option (Option String) := none
  total_supply : Option (Option ℚ) := none
  min_buy_usd : Option (Option ℚ) := none
  socials_json : Option (Option String) := none
  active : Option Int := none
deriving Repr, DecidableEq

/-- Statement `UPDATE tracked_tokens SET <named cols> WHERE chat_id=? AND mint=?`
applied to one row: exactly the named columns change. -/
def applyFields (r : TrackedRow) (f : FieldUpdates) : TrackedRow :=
  { symbol := f.symbol.getD r.symbol
    media_file_id := f.media_file_id.getD r.media_file_id
    emoji := f.emoji.getD r.emoji
    total_supply := f.total_supply.getD r.total_supply
    min_buy_usd := f.min_buy_usd.getD r.min_buy_usd
    socials_json := f.socials_json.getD r.socials_json
    active := f.active.getD r.active }

/-- The `tracked_tokens` table: rows keyed by `(chat_id, mint)`. -/
abbrev TrackedDB : Type := List ((Int × String) × TrackedRow)

/-- Query `SELECT ... WHERE chat_id=? AND mint=?`: the first row of the
key, if any. -/
def lookupDB : TrackedDB → Int → String → Option TrackedRow
  | [], _, _ => none
  | e :: es, chat_id, mint =>
    if e.1 = (chat_id, mint) then some e.2 else lookupDB es chat_id mint

/-- Upsert `upsert_token`: INSERT OR IGNORE the seed row for `(chat_id, mint)`,
then UPDATE the named columns of the rows with that key. -/
def upsert_token (db : TrackedDB) (chat_id : Int) (mint : String)
    (f : FieldUpdates) : TrackedDB :=
  let db1 :=
    if (lookupDB db chat_id mint).isSome then db
    else db ++ [((chat_id, mint), defaultTrackedRow)]
  db1.map (fun e =>
    if e.1 = (chat_id, mint) then (e.1, applyFields e.2 f) else e)

/-- Recognizer for dispatch actions. -/
def isDispatch : Action → Bool
  | .dispatch _ _ _ _ _ _ => true
  | _ => false

/-- Number of alerts in a trace. -/
def countDispatch (tr : List Action) : Nat :=
  (tr.filter isDispatch).length

/-- Number of alerts in a trace for one transaction id. -/
def countDispatchTx (tr : List Action) (txid : String) : Nat :=
  (tr.filter (fun a =>
    match a with
    | .dispatch _ t _ _ _ _ => t == txid
    | _ => false)).length

/-- Sequential delivery of a list of notifications to
`_handle_swap_raydium` for one pair, as the receive loop of
`HeliusWS._handle_message` does, concatenating the traces. -/
def runSwapRaydium (m : TxMap) (p : String) (sub : Sub) (ns : List Notif)
    (tr : List Trade) (ok : Bool) : TxMap × List Action :=
  ns.foldl
    (fun acc n =>
      let r := handleSwapRaydium acc.1 p sub n tr ok
      (r.1, acc.2 ++ r.2))
    (m, [])

/-- Concrete subscription payload used in the concrete runs below. -/
def fixSub (mint : String) (thr px : Option ℚ) : Sub :=
  { chat_id := 1, mint := mint, symbol := none, emoji := none,
    min_buy_usd := thr, price_usd := px, mcap := none,
    media_file_id := none, socials_json := none }

/-- Concrete notification with signature `t`, balances `meta` and an
optional enhanced-swap USD value. -/
def fixNotif (t : String) (meta : TxMeta) (usd : Option ℚ) : Notif :=
  { sigHead := some t, signature := none, meta := meta,
    swapEvents :=
      match usd with
      | some u => [{ nativeUsd := some u, usdValue := none }]
      | none => [] }

/-- Concrete balance change: wallet W gains 30 units of MINT. -/
def creditMeta : TxMeta :=
  { pre := [],
    post := [{ mint := "MINT", owner := some "W", amount := 30,
               decimals := 0 }] }

/-- Concrete tracked row for the fallback poller. -/
def fbFixRow : FallbackRow :=
  { chat_id := 1, mint := "MINT", media_file_id := none, symbol := none,
    emoji := none, min_buy_usd := none, socials_json := none }

/-- Concrete DexScreener trade list holding the same transaction `t1`
that the streaming path already alerted. -/
def fbFixTrades : List Trade :=
  [{ txId := some "t1", side := some "buy", amountUsd := some 100,
     amountToken := some 30, priceUsd := none }]

/-- Pre/post balances of a pure transfer of 30 tokens from holder A to
holder B: total holdings unchanged. -/
def transferMeta : TxMeta :=
  { pre := [{ mint := "M", owner := some "A", amount := 100, decimals := 0 },
            { mint := "M", owner := some "B", amount := 50, decimals := 0 }],
    post := [{ mint := "M", owner := some "A", amount := 70, decimals := 0 },
             { mint := "M", owner := some "B", amount := 80, decimals := 0 }] }

/-- P3 buy case: pre {A: 100, B: 50}, post {A: 100, B: 80}. -/
def buyMeta : TxMeta :=
  { pre := [{ mint := "M", owner := some "A", amount := 100, decimals := 0 },
            { mint := "M", owner := some "B", amount := 50, decimals := 0 }],
    post := [{ mint := "M", owner := some "A", amount := 100, decimals := 0 },
             { mint := "M", owner := some "B", amount := 80, decimals := 0 }] }

/-- P3 sell case: pre {A: 100, B: 50}, post {A: 70, B: 50}. -/
def sellCaseMeta : TxMeta :=
  { pre := buyMeta.pre,
    post := [{ mint := "M", owner := some "A", amount := 70, decimals := 0 },
             { mint := "M", owner := some "B", amount := 50, decimals := 0 }] }

/-- P3 no-trade case: post equals pre. -/
def flatMeta : TxMeta :=
  { pre := buyMeta.pre, post := buyMeta.pre }

/-- Concrete sell-tracked row. -/
def sellFixRow : SellRow :=
  { chat_id := 1, mint := "SM", media_file_id := none, symbol := none,
    usd_threshold := none }

/-- Concrete chain: every signature resolves to a sell of 60 SM by A. -/
def sellFixDetail : String → Option TxMeta := fun _ =>
  some { pre := [{ mint := "SM", owner := some "A", amount := 100,
                   decimals := 0 }],
         post := [{ mint := "SM", owner := some "A", amount := 40,
                    decimals := 0 }] }

/-- Concrete price info for the sell poller runs. -/
def sellFixInfo : Info := { symbol := "S", price := 100, mc := 0 }

/-- Concrete Pump.fun subscription awaiting handoff, with accumulated
settings: threshold 25, symbol SYM, cached price 1/2, media MEDIA. -/
def hoFixSub : Sub :=
  { chat_id := 1, mint := "MINT", symbol := some "SYM", emoji := some "E",
    min_buy_usd := some 25, price_usd := some (1/2), mcap := none,
    media_file_id := some "MEDIA", socials_json := some "{}" }

/-- Concrete located pair reporting price 7/10. -/
def hoFixPair : PairInfo :=
  { pairAddress := some "ADDR", baseSymbol := some "BASE",
    priceUsd := some (7/10), fdv := some 9 }

/-- Concrete WS subscription state before the handoff. -/
def hoFixSt : WSSubs :=
  { r_subs := [], p_subs := [("MINT", hoFixSub)] }

/-- Concrete tracked row with an accumulated threshold and symbol. -/
def rowFix : TrackedRow :=
  { symbol := some "OLD", media_file_id := none, emoji := none,
    total_supply := none, min_buy_usd := some 42, socials_json := none,
    active := 0 }

/-- Concrete two-row table. -/
def dbFix : TrackedDB := [((1, "M"), rowFix), ((2, "N"), defaultTrackedRow)]

/-- Concrete update naming only the emoji column. -/
def updFix : FieldUpdates := { emoji := some (some "x") }

theorem lookupA_insertA_self {α : Type} (l : List (String × α)) (k : String)
    (v : α) : lookupA (insertA l k v) k = some v := by
  simp [lookupA, insertA]

theorem lookupA_eraseA_self {α : Type} (l : List (String × α)) (k : String) :
    lookupA (eraseA l k) k = none := by
  simp [lookupA, eraseA, List.find?_eq_none, List.mem_filter]

theorem countDispatch_append (a b : List Action) :
    countDispatch (a ++ b) = countDispatch a + countDispatch b := by
  simp [countDispatch, List.filter_append]

theorem handleSwapRaydium_lookup (m : TxMap) (p : String) (sub : Sub)
    (n : Notif) (tr : List Trade) (ok : Bool) (txid : String)
    (h : getTxid n = some txid) :
    lookupA (handleSwapRaydium m p sub n tr ok).1 ("r:" ++ p) = some txid := by
  unfold handleSwapRaydium
  rw [h]
  by_cases hl : lookupA m ("r:" ++ p) = some txid
  · simp [hl]
  · simp only [if_neg hl]
    split
    · exact lookupA_insertA_self ..
    · split
      · exact lookupA_insertA_self ..
      · split
        · exact lookupA_insertA_self ..
        · exact lookupA_insertA_self ..

theorem handleSwapRaydium_trace (m : TxMap) (p : String) (sub : Sub)
    (n : Notif) (tr : List Trade) (ok : Bool) (txid : String)
    (h : getTxid n = some txid) :
    (handleSwapRaydium m p sub n tr ok).2 = [] ∨
    (handleSwapRaydium m p sub n tr ok).2 = [.record ("r:" ++ p) txid] ∨
    ∃ usd amt,
      (handleSwapRaydium m p sub n tr ok).2 =
        [.record ("r:" ++ p) txid,
         .dispatch ("r:" ++ p) txid usd amt none ok] := by
  unfold handleSwapRaydium
  rw [h]
  by_cases hl : lookupA m ("r:" ++ p) = some txid
  · simp [hl]
  · simp only [if_neg hl]
    split
    · right; left; rfl
    · split
      · right; left; rfl
      · split
        · right; left; rfl
        · right; right; exact ⟨_, _, rfl⟩

theorem handleSwapRaydium_ok_irrelevant (m : TxMap) (p : String) (sub : Sub)
    (n : Notif) (tr : List Trade) (ok ok2 : Bool) :
    (handleSwapRaydium m p sub n tr ok).1 =
      (handleSwapRaydium m p sub n tr ok2).1 := by
  unfold handleSwapRaydium
  cases h : getTxid n with
  | none => rfl
  | some txid =>
    by_cases hl : lookupA m ("r:" ++ p) = some txid
    · simp [hl]
    · simp only [if_neg hl]
      split
      · rfl
      · split
        · rfl
        · split
          · rfl
          · rfl

theorem handleSwapRaydium_retry (m : TxMap) (p : String) (sub : Sub)
    (n : Notif) (tr : List Trade) (ok ok2 : Bool) :
    (handleSwapRaydium (handleSwapRaydium m p sub n tr ok).1 p sub n tr
        ok2).2 = [] := by
  cases h : getTxid n with
  | none => simp [handleSwapRaydium, h]
  | some txid =>
    have hla := handleSwapRaydium_lookup m p sub n tr ok txid h
    generalize hM : (handleSwapRaydium m p sub n tr ok).1 = M at hla ⊢
    unfold handleSwapRaydium
    rw [h]
    simp [hla]

theorem handleSwapRaydium_count_le_one (m : TxMap) (p : String) (sub : Sub)
    (n : Notif) (tr : List Trade) (ok : Bool) :
    countDispatch (handleSwapRaydium m p sub n tr ok).2 ≤ 1 := by
  cases h : getTxid n with
  | none => simp [handleSwapRaydium, h, countDispatch]
  | some txid =>
    rcases handleSwapRaydium_trace m p sub n tr ok txid h with
      h2 | h2 | ⟨u, a, h2⟩ <;>
      simp [h2, countDispatch, isDispatch]

/-- C1 counterexample: the streaming dedupe keeps only the last
transaction id per venue key, so delivering t1, then t2, then t1 again
on the same pair emits two alerts for the unique pair (r:PAIR, t1); and
the fallback poller, with its own separate dedupe dict, alerts the same
underlying transaction t1 once more even though the streaming path
already alerted it.  This contradicts "at most one alert per unique
(venue, tx) pair" both for reappearing pairs and across sources. -/
theorem C1_counterexample :
    countDispatchTx
        (runSwapRaydium [] "PAIR" (fixSub "MINT" none none)
          [fixNotif "t1" creditMeta (some 100),
           fixNotif "t2" creditMeta (some 100),
           fixNotif "t1" creditMeta (some 100)]
          [] true).2 "t1" = 2 ∧
    countDispatchTx (runSwapRaydium [] "PAIR" (fixSub "MINT" none none)
        [fixNotif "t1" creditMeta (some 100)] [] true).2 "t1" = 1 ∧
    countDispatchTx (fallbackPollPair [] "PAIR" fbFixRow fbFixTrades true).2
        "t1" = 1 := by
  have hd : ¬((30 : ℚ) ≤ 0) := by norm_num
  have hu : ¬((100 : ℚ) < 5) := by norm_num
  refine ⟨?_, ?_, ?_⟩
  · simp [runSwapRaydium, handleSwapRaydium, fixSub, fixNotif, creditMeta,
      getTxid, strTruthy, pyOrS, lookupA, insertA, delta_for_mint, preAmt,
      resolveUsdRaydium, swapEventsUsd, pyOrQ, effMinBuy,
      DEFAULT_MIN_BUY_USD, countDispatchTx, hd, hu]
  · simp [runSwapRaydium, handleSwapRaydium, fixSub, fixNotif, creditMeta,
      getTxid, strTruthy, pyOrS, lookupA, insertA, delta_for_mint, preAmt,
      resolveUsdRaydium, swapEventsUsd, pyOrQ, effMinBuy,
      DEFAULT_MIN_BUY_USD, countDispatchTx, hd, hu]
  · simp [fallbackPollPair, fbFixRow, fbFixTrades, fbGet, fallbackCollect,
      strTruthy, pyOrS, insertA, effMinBuy, DEFAULT_MIN_BUY_USD,
      countDispatchTx, pyLower, charLower, hu]

/-- C1 (amended): each streaming-handler invocation emits at most one
alert, and an immediately repeated delivery of the same notification to
the same handler is suppressed by the last-txid record, so a duplicate
arriving while its pair is still the most recently seen one for its
venue key yields at most one alert in total. -/
theorem C1_theorem (m : TxMap) (p : String) (sub : Sub) (n : Notif)
    (tr : List Trade) (ok : Bool) :
    countDispatch (handleSwapRaydium m p sub n tr ok).2 ≤ 1 ∧
    countDispatch (runSwapRaydium m p sub [n, n] tr ok).2 ≤ 1 := by
  refine ⟨handleSwapRaydium_count_le_one m p sub n tr ok, ?_⟩
  have h2 := handleSwapRaydium_retry m p sub n tr ok ok
  simp [runSwapRaydium, countDispatch_append, h2]
  exact handleSwapRaydium_count_le_one m p sub n tr ok

/-- C2: for every notification the streaming handler processes, the
transaction id is written to the dedupe state strictly before any
dispatch (the trace is empty, a lone record, or a record followed by
the dispatch), the resulting dedupe state does not depend on whether
the sink delivery succeeded, the id is recorded afterwards in every
case, and an immediate retry of the same notification dispatches
nothing. -/
theorem C2_theorem (m : TxMap) (p : String) (sub : Sub) (n : Notif)
    (tr : List Trade) (ok ok2 : Bool) (txid : String)
    (h : getTxid n = some txid) :
    ((handleSwapRaydium m p sub n tr ok).2 = [] ∨
     (handleSwapRaydium m p sub n tr ok).2 = [.record ("r:" ++ p) txid] ∨
     ∃ usd amt,
       (handleSwapRaydium m p sub n tr ok).2 =
         [.record ("r:" ++ p) txid,
          .dispatch ("r:" ++ p) txid usd amt none ok]) ∧
    (handleSwapRaydium m p sub n tr true).1 =
      (handleSwapRaydium m p sub n tr false).1 ∧
    lookupA (handleSwapRaydium m p sub n tr ok).1 ("r:" ++ p) = some txid ∧
    (handleSwapRaydium (handleSwapRaydium m p sub n tr ok).1 p sub n tr
        ok2).2 = [] :=
  ⟨handleSwapRaydium_trace m p sub n tr ok txid h,
   handleSwapRaydium_ok_irrelevant m p sub n tr true false,
   handleSwapRaydium_lookup m p sub n tr ok txid h,
   handleSwapRaydium_retry m p sub n tr ok ok2⟩

/-- Witness for C2 at a concrete event with a failing sink delivery. -/
theorem C2_witness :
    getTxid (fixNotif "t1" creditMeta (some 100)) = some "t1" ∧
    (((handleSwapRaydium [] "PAIR" (fixSub "MINT" none none)
          (fixNotif "t1" creditMeta (some 100)) [] false).2 = [] ∨
      (handleSwapRaydium [] "PAIR" (fixSub "MINT" none none)
          (fixNotif "t1" creditMeta (some 100)) [] false).2 =
        [.record ("r:" ++ "PAIR") "t1"] ∨
      ∃ usd amt,
        (handleSwapRaydium [] "PAIR" (fixSub "MINT" none none)
            (fixNotif "t1" creditMeta (some 100)) [] false).2 =
          [.record ("r:" ++ "PAIR") "t1",
           .dispatch ("r:" ++ "PAIR") "t1" usd amt none false]) ∧
     (handleSwapRaydium [] "PAIR" (fixSub "MINT" none none)
          (fixNotif "t1" creditMeta (some 100)) [] true).1 =
       (handleSwapRaydium [] "PAIR" (fixSub "MINT" none none)
          (fixNotif "t1" creditMeta (some 100)) [] false).1 ∧
     lookupA (handleSwapRaydium [] "PAIR" (fixSub "MINT" none none)
          (fixNotif "t1" creditMeta (some 100)) [] false).1 ("r:" ++ "PAIR") =
       some "t1" ∧
     (handleSwapRaydium
        (handleSwapRaydium [] "PAIR" (fixSub "MINT" none none)
          (fixNotif "t1" creditMeta (some 100)) [] false).1
        "PAIR" (fixSub "MINT" none none)
        (fixNotif "t1" creditMeta (some 100)) [] true).2 = []) :=
  ⟨by simp [fixNotif, getTxid, strTruthy, pyOrS],
   C2_theorem [] "PAIR" (fixSub "MINT" none none)
     (fixNotif "t1" creditMeta (some 100)) [] false true "t1"
     (by simp [fixNotif, getTxid, strTruthy, pyOrS])⟩


/-- Reduction of one sell-poll step on a fresh newest signature. -/
theorem pollSellsRow_fresh (seen : TxMap) (row : SellRow) (t0 : SigEntry)
    (rest : List SigEntry) (detail : String → Option TxMeta) (info : Info)
    (ok : Bool) (sig : String)
    (hn : is_native_sol row.mint = false)
    (hs : strTruthy t0.signature = some sig)
    (hfresh : ¬ lookupA seen row.mint = some sig) :
    pollSellsRow seen row (t0 :: rest) detail info ok =
      match parse_sell (detail sig) row.mint with
      | none => (insertA seen row.mint sig, [])
      | some d =>
        if (if info.price ≠ 0 then d.amount * info.price else 0) <
            effSellThr row.usd_threshold then
          (insertA seen row.mint sig, [])
        else
          (insertA seen row.mint sig,
           [.dispatch row.mint sig
              (if info.price ≠ 0 then d.amount * info.price else 0)
              (some d.amount) (some ((strTruthy d.seller).getD "?")) ok]) := by
  unfold pollSellsRow
  simp only [hn, Bool.false_eq_true, if_false, hs, if_neg hfresh]

/-- Reduction of one sell-poll step when the decode succeeds. -/
theorem pollSellsRow_fresh_some (seen : TxMap) (row : SellRow)
    (t0 : SigEntry) (rest : List SigEntry) (detail : String → Option TxMeta)
    (info : Info) (ok : Bool) (sig : String) (det : SellDetails)
    (hn : is_native_sol row.mint = false)
    (hs : strTruthy t0.signature = some sig)
    (hfresh : ¬ lookupA seen row.mint = some sig)
    (hparse : parse_sell (detail sig) row.mint = some det) :
    pollSellsRow seen row (t0 :: rest) detail info ok =
      if (if info.price ≠ 0 then det.amount * info.price else 0) <
          effSellThr row.usd_threshold then
        (insertA seen row.mint sig, [])
      else
        (insertA seen row.mint sig,
         [.dispatch row.mint sig
            (if info.price ≠ 0 then det.amount * info.price else 0)
            (some det.amount) (some ((strTruthy det.seller).getD "?")) ok]) := by
  rw [pollSellsRow_fresh seen row t0 rest detail info ok sig hn hs hfresh,
    hparse]

/-- C3 (amended): an RPC-poller cycle for a token examines only the
newest fetched signature; when it is fresh, the dedupe state jumps
straight to it, the outcome does not depend on the older signatures in
the batch, and at most that one transaction is alerted. -/
theorem C3_theorem (seen : TxMap) (row : SellRow) (t0 : SigEntry)
    (rest : List SigEntry) (detail : String → Option TxMeta) (info : Info)
    (ok : Bool) (sig : String)
    (hn : is_native_sol row.mint = false)
    (hs : strTruthy t0.signature = some sig)
    (hfresh : ¬ lookupA seen row.mint = some sig) :
    pollSellsRow seen row (t0 :: rest) detail info ok =
      pollSellsRow seen row [t0] detail info ok ∧
    lookupA (pollSellsRow seen row (t0 :: rest) detail info ok).1 row.mint =
      some sig ∧
    ((pollSellsRow seen row (t0 :: rest) detail info ok).2 = [] ∨
     ∃ u amt cp,
       (pollSellsRow seen row (t0 :: rest) detail info ok).2 =
         [.dispatch row.mint sig u amt cp ok]) := by
  have e1 := pollSellsRow_fresh seen row t0 rest detail info ok sig hn hs hfresh
  have e2 := pollSellsRow_fresh seen row t0 [] detail info ok sig hn hs hfresh
  refine ⟨e1.trans e2.symm, ?_, ?_⟩
  · rw [e1]
    split
    · exact lookupA_insertA_self ..
    · split <;> split <;> exact lookupA_insertA_self ..
  · rw [e1]
    split
    · left; rfl
    · split <;> split <;>
        first
        | (left; rfl)
        | (right; exact ⟨_, _, _, rfl⟩)

/-- C3 counterexample: a batch of three fresh decodable above-threshold
sell signatures, newest first, yields exactly one alert, for the newest
signature s3 only, although s1 alone would have been alerted had it been
the newest; so the poller does not process every signature newer than
the last seen one, and emits no alerts for s1 and s2 at all. -/
theorem C3_counterexample :
    (pollSellsRow [] sellFixRow [⟨some "s3"⟩, ⟨some "s2"⟩, ⟨some "s1"⟩]
        sellFixDetail sellFixInfo true).2 =
      [.dispatch "SM" "s3" 6000 (some 60) (some "A") true] ∧
    lookupA (pollSellsRow [] sellFixRow
        [⟨some "s3"⟩, ⟨some "s2"⟩, ⟨some "s1"⟩]
        sellFixDetail sellFixInfo true).1 "SM" = some "s3" ∧
    (pollSellsRow [] sellFixRow [⟨some "s1"⟩] sellFixDetail sellFixInfo
        true).2 = [.dispatch "SM" "s1" 6000 (some 60) (some "A") true] := by
  have h0 : (100 : ℚ) - 40 = 60 := by norm_num
  have h1 : ¬((60 : ℚ) * 100 < 1000) := by norm_num
  have h2 : (60 : ℚ) * 100 = 6000 := by norm_num
  have h3 : ¬((6000 : ℚ) < 1000) := by norm_num
  refine ⟨?_, ?_, ?_⟩ <;>
    simp [pollSellsRow, sellFixRow, sellFixDetail, sellFixInfo, is_native_sol,
      strTruthy, lookupA, insertA, parse_sell, parseSellMeta, preAmt,
      effSellThr, DEFAULT_WHALE_USD, h0, h1, h2, h3]

/-- Lemma: a non-positive base-mint delta never dispatches. -/
theorem handleSwapRaydium_nodispatch (m : TxMap) (p : String) (sub : Sub)
    (n : Notif) (tr : List Trade) (ok : Bool)
    (h : delta_for_mint n.meta sub.mint ≤ 0) :
    countDispatch (handleSwapRaydium m p sub n tr ok).2 = 0 := by
  unfold handleSwapRaydium
  cases hg : getTxid n with
  | none => simp [countDispatch]
  | some txid =>
    by_cases hl : lookupA m ("r:" ++ p) = some txid
    · simp [hl, countDispatch]
    · simp [hl, h, countDispatch, isDispatch]

/-- C4 counterexample: for the pure transfer of 30 tokens from holder A
to holder B (pre A: 100, B: 50; post A: 70, B: 80), the buy-path
decoder nets the balances to delta 0, but the sell-path decoder
classifies it as a sell of 30 by A — so the transfer does yield a trade
event in the sell path, contradicting the claim. -/
theorem C4_counterexample :
    delta_for_mint transferMeta "M" = 0 ∧
    parseSellMeta transferMeta "M" =
      some { seller := some "A", amount := 30, decimals := 0 } := by
  constructor
  · simp [delta_for_mint, transferMeta, preAmt]
    norm_num
  · simp [parseSellMeta, transferMeta, preAmt]
    norm_num

/-- C4 (amended): for every pure transfer of x tokens between two
distinct already-holding participants, the buy path computes a zero net
delta from the actual pre/post balances and emits nothing, while the
sell path reports the sender as a seller of x scaled by the decimals of
the balance record. -/
theorem C4_theorem (mint A B : String) (a b x : Int) (d : Nat)
    (hAB : A ≠ B) (hx : 0 < x) :
    delta_for_mint
      { pre := [{ mint := mint, owner := some A, amount := a, decimals := d },
                { mint := mint, owner := some B, amount := b, decimals := d }],
        post := [{ mint := mint, owner := some A, amount := a - x,
                   decimals := d },
                 { mint := mint, owner := some B, amount := b + x,
                   decimals := d }] }
      mint = 0 ∧
    parseSellMeta
      { pre := [{ mint := mint, owner := some A, amount := a, decimals := d },
                { mint := mint, owner := some B, amount := b, decimals := d }],
        post := [{ mint := mint, owner := some A, amount := a - x,
                   decimals := d },
                 { mint := mint, owner := some B, amount := b + x,
                   decimals := d }] }
      mint =
      some { seller := some A, amount := (x : ℚ) / (10 : ℚ) ^ d,
             decimals := d } ∧
    (∀ (m : TxMap) (p : String) (sub : Sub) (n : Notif) (tr : List Trade)
       (ok : Bool),
      sub.mint = mint →
      n.meta =
        { pre := [{ mint := mint, owner := some A, amount := a,
                    decimals := d },
                  { mint := mint, owner := some B, amount := b,
                    decimals := d }],
          post := [{ mint := mint, owner := some A, amount := a - x,
                     decimals := d },
                   { mint := mint, owner := some B, amount := b + x,
                     decimals := d }] } →
      countDispatch (handleSwapRaydium m p sub n tr ok).2 = 0) := by
  have hBA : B ≠ A := fun h => hAB h.symm
  have hdelta :
      delta_for_mint
        { pre := [{ mint := mint, owner := some A, amount := a,
                    decimals := d },
                  { mint := mint, owner := some B, amount := b,
                    decimals := d }],
          post := [{ mint := mint, owner := some A, amount := a - x,
                     decimals := d },
                   { mint := mint, owner := some B, amount := b + x,
                     decimals := d }] }
        mint = 0 := by
    simp [delta_for_mint, preAmt, hAB, hBA]
    ring
  refine ⟨hdelta, ?_, ?_⟩
  · have h1 : preAmt
        [{ mint := mint, owner := some A, amount := a, decimals := d },
         { mint := mint, owner := some B, amount := b, decimals := d }]
        mint (some A) = a := by
      simp [preAmt, hBA]
    have hdec : decide (0 < x) = true := decide_eq_true hx
    simp [parseSellMeta, List.find?_cons, h1, hdec, sub_sub_cancel]
  · intro m p sub n tr ok hm hn
    exact handleSwapRaydium_nodispatch m p sub n tr ok
      (by rw [hm, hn, hdelta])

/-- C5 counterexample: decoding the P3 buy case (pre A: 100, B: 50;
post A: 100, B: 80; decimals 0) through the streaming handler emits a
buy alert of amount 30 whose counter-party field is none — the buy
pipeline computes no counter-party, so the decode does not yield
"counter-party B" as claimed. -/
theorem C5_counterexample :
    (handleSwapRaydium [] "PAIR" (fixSub "M" none none)
        (fixNotif "bx" buyMeta (some 1000)) [] true).2 =
      [.record "r:PAIR" "bx",
       .dispatch "r:PAIR" "bx" 1000 (some 30) none true] ∧
    (none : Option String) ≠ some "B" := by
  have h1 : (100 : ℚ) - 100 = 0 := by norm_num
  have h2 : (80 : ℚ) - 50 = 30 := by norm_num
  have h3 : ¬((30 : ℚ) ≤ 0) := by norm_num
  have h4 : ¬((1000 : ℚ) < 5) := by norm_num
  have h5 : |(30 : ℚ)| = 30 := by norm_num
  refine ⟨?_, by simp⟩
  simp [handleSwapRaydium, fixSub, fixNotif, buyMeta, getTxid, strTruthy,
    pyOrS, lookupA, insertA, delta_for_mint, preAmt, resolveUsdRaydium,
    swapEventsUsd, pyOrQ, effMinBuy, DEFAULT_MIN_BUY_USD, h1, h2, h3, h4, h5]

/-- C5 (amended): the P3 buy case decodes to a net delta of 30 and the
alert carries amount 30 with no counter-party identified; the P3 sell
case decodes to a sell of 30 with counter-party A; post equal to pre
yields no trade in either path; and raw amounts are scaled by
10 ^ decimals taken from the balance record itself. -/
theorem C5_theorem :
    delta_for_mint buyMeta "M" = 30 ∧
    (handleSwapRaydium [] "PAIR" (fixSub "M" none none)
        (fixNotif "bx" buyMeta (some 1000)) [] true).2 =
      [.record "r:PAIR" "bx",
       .dispatch "r:PAIR" "bx" 1000 (some 30) none true] ∧
    parseSellMeta sellCaseMeta "M" =
      some { seller := some "A", amount := 30, decimals := 0 } ∧
    delta_for_mint flatMeta "M" = 0 ∧
    parseSellMeta flatMeta "M" = none ∧
    (∀ (mint o : String) (a x : Int) (d : Nat),
      delta_for_mint
        { pre := [{ mint := mint, owner := some o, amount := a,
                    decimals := d }],
          post := [{ mint := mint, owner := some o, amount := a + x,
                     decimals := d }] }
        mint = (x : ℚ) / (10 : ℚ) ^ d) := by
  have h1 : (100 : ℚ) - 100 = 0 := by norm_num
  have h2 : (80 : ℚ) - 50 = 30 := by norm_num
  have h3 : ¬((30 : ℚ) ≤ 0) := by norm_num
  have h4 : ¬((1000 : ℚ) < 5) := by norm_num
  have h5 : |(30 : ℚ)| = 30 := by norm_num
  refine ⟨?_, ?_, ?_, ?_, ?_, ?_⟩
  · simp [delta_for_mint, buyMeta, preAmt, h1, h2]
  · simp [handleSwapRaydium, fixSub, fixNotif, buyMeta, getTxid, strTruthy,
      pyOrS, lookupA, insertA, delta_for_mint, preAmt, resolveUsdRaydium,
      swapEventsUsd, pyOrQ, effMinBuy, DEFAULT_MIN_BUY_USD, h1, h2, h3, h4, h5]
  · simp [parseSellMeta, sellCaseMeta, buyMeta, preAmt]
    try norm_num
  · simp [delta_for_mint, flatMeta, buyMeta, preAmt]
  · simp [parseSellMeta, flatMeta, buyMeta, preAmt]
  · intro mint o a x d
    simp [delta_for_mint, preAmt]
    try ring

/-- C6 counterexample: with a configured minimum-USD threshold of 0 and
a fresh candidate of known USD value 2 — at or above the configured
threshold — no alert is emitted, because the code substitutes the
default threshold for a stored zero. -/
theorem C6_counterexample :
    (0 : ℚ) ≤ 2 ∧
    (fixSub "MINT" (some 0) none).min_buy_usd = some 0 ∧
    countDispatch (handleSwapRaydium [] "PAIR" (fixSub "MINT" (some 0) none)
        (fixNotif "t9" creditMeta (some 2)) [] true).2 = 0 := by
  have hd : ¬((30 : ℚ) ≤ 0) := by norm_num
  have h25 : (2 : ℚ) < 5 := by norm_num
  refine ⟨by norm_num, rfl, ?_⟩
  simp [handleSwapRaydium, fixSub, fixNotif, creditMeta, getTxid, strTruthy,
    pyOrS, lookupA, insertA, delta_for_mint, preAmt, resolveUsdRaydium,
    swapEventsUsd, pyOrQ, effMinBuy, DEFAULT_MIN_BUY_USD, countDispatch,
    isDispatch, hd, h25]

/-- C6 (amended): a candidate with known USD value is alerted exactly
once when the value reaches the effective threshold (the configured
value when truthy — nonzero for buys, positive for sells — otherwise
the default) and not at all when it is strictly below, on both the
streaming buy path and the sell-poller path. -/
theorem C6_theorem :
    (∀ (m : TxMap) (p : String) (sub : Sub) (n : Notif) (tr : List Trade)
       (ok : Bool) (txid : String) (u : ℚ),
      getTxid n = some txid →
      ¬ lookupA m ("r:" ++ p) = some txid →
      0 < delta_for_mint n.meta sub.mint →
      resolveUsdRaydium sub n tr txid
        |delta_for_mint n.meta sub.mint| = some u →
      countDispatch (handleSwapRaydium m p sub n tr ok).2 =
        if u < effMinBuy sub.min_buy_usd then 0 else 1) ∧
    (∀ (seen : TxMap) (row : SellRow) (t0 : SigEntry) (rest : List SigEntry)
       (detail : String → Option TxMeta) (info : Info) (ok : Bool)
       (sig : String) (det : SellDetails),
      is_native_sol row.mint = false →
      strTruthy t0.signature = some sig →
      ¬ lookupA seen row.mint = some sig →
      parse_sell (detail sig) row.mint = some det →
      countDispatch (pollSellsRow seen row (t0 :: rest) detail info ok).2 =
        if (if info.price ≠ 0 then det.amount * info.price else 0) <
            effSellThr row.usd_threshold then 0 else 1) := by
  constructor
  · intro m p sub n tr ok txid u hg hl hpos hres
    unfold handleSwapRaydium
    simp only [hg, if_neg hl]
    rw [if_neg (not_le.mpr hpos), hres]
    by_cases hc : u < effMinBuy sub.min_buy_usd
    · simp [hc, countDispatch, isDispatch]
    · simp [hc, countDispatch, isDispatch]
  · intro seen row t0 rest detail info ok sig det hn hs hl hparse
    rw [pollSellsRow_fresh_some seen row t0 rest detail info ok sig det hn hs
      hl hparse]
    by_cases hc : (if info.price ≠ 0 then det.amount * info.price else 0) <
        effSellThr row.usd_threshold
    · rw [if_pos hc, if_pos hc]
      simp [countDispatch]
    · rw [if_neg hc, if_neg hc]
      simp [countDispatch, isDispatch]

/-- C7: when every provider fails, the price resolver returns the
zero-price sentinel (it is a total function, never an error), and a
decoded pre-listing buy candidate carrying only a token amount, with no
cached price and the sentinel price info, is never alerted — no alert
with a fabricated zero USD value is emitted. -/
theorem C7_theorem :
    fetch_token_info none none none =
      { symbol := "TOKEN", price := 0, mc := 0 } ∧
    (fetch_token_info none none none).price = 0 ∧
    fetchTokenInfoBuy none none =
      { symbol := "TOKEN", price := 0, mc := 0 } ∧
    (∀ (m : TxMap) (mint : String) (sub : Sub) (n : Notif) (ok : Bool),
      sub.price_usd.getD 0 = 0 →
      countDispatch
        (handleBuyPumpfun m mint sub n (fetchTokenInfoBuy none none)
          ok).2.2 = 0) := by
  refine ⟨rfl, rfl, rfl, ?_⟩
  intro m mint sub n ok hp
  unfold handleBuyPumpfun
  cases hg : getTxid n with
  | none => simp [countDispatch]
  | some txid =>
    by_cases hl : lookupA m ("p:" ++ mint) = some txid
    · simp [hl, countDispatch]
    · simp only [if_neg hl]
      split
      · simp [countDispatch, isDispatch]
      · simp [hp, fetchTokenInfoBuy, countDispatch, isDispatch]

/-- Lemma: a truthy result is itself truthy. -/
theorem strTruthy_self (a : Option String) (s : String)
    (h : strTruthy a = some s) : strTruthy (some s) = some s := by
  cases a with
  | none => simp [strTruthy] at h
  | some t =>
    by_cases ht : t = ""
    · simp [strTruthy, ht] at h
    · simp [strTruthy, ht] at h
      subst h
      simp [strTruthy, ht]

/-- C8 counterexample: a handoff for a subscription whose cached price
is 1/2, to a pair reporting price 7/10, stores 7/10 — not the cached
1/2 — in the venue-based subscription, so the cached price is not
carried over unchanged. -/
theorem C8_counterexample :
    (lookupA (handoffStep hoFixSt "MINT" (some hoFixPair)).r_subs
        "ADDR").map Sub.price_usd = some (some (7/10)) ∧
    hoFixSub.price_usd = some (1/2) ∧
    ((7 : ℚ)/10) ≠ 1/2 := by
  refine ⟨?_, rfl, by norm_num⟩
  simp [handoffStep, hoFixSt, hoFixSub, hoFixPair, refreshFromPair, lookupA,
    insertA, eraseA, strTruthy, pyOrS]

/-- C8 (amended): a successful handoff removes the pre-listing
subscription, so running the handoff step again is a no-op for any
further pair lookup result; the venue-based subscription keeps the
threshold, media, emoji, socials, chat and mint unchanged and keeps an
already-set symbol; the cached price is refreshed from the located pair
rather than carried over. -/
theorem C8_theorem (st : WSSubs) (mint : String) (pair : PairInfo)
    (sub : Sub) (addr : String)
    (hsub : lookupA st.p_subs mint = some sub)
    (haddr : strTruthy pair.pairAddress = some addr) :
    lookupA (handoffStep st mint (some pair)).p_subs mint = none ∧
    (∀ pr2, handoffStep (handoffStep st mint (some pair)) mint pr2 =
      handoffStep st mint (some pair)) ∧
    lookupA (handoffStep st mint (some pair)).r_subs addr =
      some (refreshFromPair sub pair) ∧
    (refreshFromPair sub pair).min_buy_usd = sub.min_buy_usd ∧
    (refreshFromPair sub pair).media_file_id = sub.media_file_id ∧
    (refreshFromPair sub pair).emoji = sub.emoji ∧
    (refreshFromPair sub pair).socials_json = sub.socials_json ∧
    (refreshFromPair sub pair).chat_id = sub.chat_id ∧
    (refreshFromPair sub pair).mint = sub.mint ∧
    (∀ s, strTruthy sub.symbol = some s →
      (refreshFromPair sub pair).symbol = some s) ∧
    (refreshFromPair sub pair).price_usd = some (pair.priceUsd.getD 0) := by
  have hstep : handoffStep st mint (some pair) =
      { r_subs := insertA st.r_subs addr (refreshFromPair sub pair),
        p_subs := eraseA st.p_subs mint } := by
    unfold handoffStep
    simp only [hsub, haddr]
  refine ⟨?_, ?_, ?_, rfl, rfl, rfl, rfl, rfl, rfl, ?_, rfl⟩
  · rw [hstep]
    exact lookupA_eraseA_self ..
  · intro pr2
    rw [hstep]
    simp [handoffStep, lookupA_eraseA_self]
  · rw [hstep]
    exact lookupA_insertA_self ..
  · intro s hs
    have h2 := strTruthy_self sub.symbol s hs
    simp [refreshFromPair, pyOrS, hs, h2]

/-- Lemma: every streaming-buy alert meets the effective threshold. -/
theorem handleSwapRaydium_dispatch_ge (m : TxMap) (p : String) (sub : Sub)
    (n : Notif) (tr : List Trade) (ok : Bool) (k t : String) (u : ℚ)
    (amt : Option ℚ) (cp : Option String) (o : Bool)
    (hmem : Action.dispatch k t u amt cp o ∈
      (handleSwapRaydium m p sub n tr ok).2) :
    effMinBuy sub.min_buy_usd ≤ u := by
  unfold handleSwapRaydium at hmem
  split at hmem
  · simp at hmem
  · rename_i x txid heq
    by_cases hl : lookupA m ("r:" ++ p) = some txid
    · simp only [if_pos hl] at hmem
      simp at hmem
    · simp only [if_neg hl] at hmem
      split at hmem
      · simp at hmem
      · split at hmem
        · simp at hmem
        · split at hmem
          · simp at hmem
          · rename_i husd
            simp at hmem
            obtain ⟨_, _, hu, _⟩ := hmem
            exact not_lt.mp (hu ▸ husd)

/-- Lemma: every sell alert meets the effective whale threshold. -/
theorem pollSellsRow_dispatch_ge (seen : TxMap) (row : SellRow)
    (txs : List SigEntry) (detail : String → Option TxMeta) (info : Info)
    (ok : Bool) (k t : String) (u : ℚ) (amt : Option ℚ) (cp : Option String)
    (o : Bool)
    (hmem : Action.dispatch k t u amt cp o ∈
      (pollSellsRow seen row txs detail info ok).2) :
    effSellThr row.usd_threshold ≤ u := by
  unfold pollSellsRow at hmem
  split at hmem
  · simp at hmem
  · split at hmem
    · simp at hmem
    · split at hmem
      · simp at hmem
      · rename_i x sig heq
        by_cases hl : lookupA seen row.mint = some sig
        · simp only [if_pos hl] at hmem
          simp at hmem
        · simp only [if_neg hl] at hmem
          split at hmem
          · simp at hmem
          · split at hmem
            · split at hmem
              · simp at hmem
              · rename_i husd
                simp at hmem
                obtain ⟨_, _, hu, _⟩ := hmem
                exact not_lt.mp (hu ▸ husd)
            · split at hmem
              · simp at hmem
              · rename_i husd
                simp at hmem
                obtain ⟨_, _, hu, _⟩ := hmem
                exact not_lt.mp (hu ▸ husd)

/-- C9: a stored buy threshold of 0 (or none) resolves to the default
5 USD, a stored sell threshold that is not positive resolves to the
default 1000 USD, and consequently every alert emitted for such a
subscription has a USD value at or above the module default — an
operator cannot configure an effective threshold of zero. -/
theorem C9_theorem :
    effMinBuy (some 0) = DEFAULT_MIN_BUY_USD ∧
    effMinBuy none = DEFAULT_MIN_BUY_USD ∧
    (∀ x : ℚ, x ≤ 0 → effSellThr (some x) = DEFAULT_WHALE_USD) ∧
    effSellThr none = DEFAULT_WHALE_USD ∧
    (∀ (m : TxMap) (p : String) (sub : Sub) (n : Notif) (tr : List Trade)
       (ok : Bool) (k t : String) (u : ℚ) (amt : Option ℚ)
       (cp : Option String) (o : Bool),
      sub.min_buy_usd = some 0 →
      Action.dispatch k t u amt cp o ∈
        (handleSwapRaydium m p sub n tr ok).2 →
      DEFAULT_MIN_BUY_USD ≤ u) ∧
    (∀ (seen : TxMap) (row : SellRow) (txs : List SigEntry)
       (detail : String → Option TxMeta) (info : Info) (ok : Bool) (x : ℚ)
       (k t : String) (u : ℚ) (amt : Option ℚ) (cp : Option String)
       (o : Bool),
      row.usd_threshold = some x → x ≤ 0 →
      Action.dispatch k t u amt cp o ∈
        (pollSellsRow seen row txs detail info ok).2 →
      DEFAULT_WHALE_USD ≤ u) := by
  refine ⟨rfl, rfl, ?_, rfl, ?_, ?_⟩
  · intro x hx
    have hno : ¬ (x ≠ 0 ∧ x > 0) := fun h => absurd h.2 (not_lt.mpr hx)
    simp only [effSellThr, if_neg hno]
  · intro m p sub n tr ok k t u amt cp o hthr hmem
    have h := handleSwapRaydium_dispatch_ge m p sub n tr ok k t u amt cp o
      hmem
    rw [hthr] at h
    simpa [effMinBuy] using h
  · intro seen row txs detail info ok x k t u amt cp o hthr hx hmem
    have h := pollSellsRow_dispatch_ge seen row txs detail info ok k t u amt
      cp o hmem
    rw [hthr] at h
    have hno : ¬ (x ≠ 0 ∧ x > 0) := fun h2 => absurd h2.2 (not_lt.mpr hx)
    rw [effSellThr] at h
    rw [if_neg hno] at h
    exact h

/-- Lemma: the row update acts pointwise on the looked-up row. -/
theorem lookupDB_map_upd (db : TrackedDB) (chat : Int) (mint : String)
    (f : FieldUpdates) :
    lookupDB (db.map (fun e =>
      if e.1 = (chat, mint) then (e.1, applyFields e.2 f) else e)) chat mint =
      (lookupDB db chat mint).map (fun r => applyFields r f) := by
  induction db with
  | nil => simp [lookupDB]
  | cons e es ih =>
    by_cases he : e.1 = (chat, mint)
    · simp [lookupDB, he]
    · simp [lookupDB, he]
      exact ih

/-- Lemma: the row update leaves other keys untouched. -/
theorem lookupDB_map_upd_ne (db : TrackedDB) (chat : Int) (mint : String)
    (f : FieldUpdates) (c : Int) (m2 : String)
    (hne : (c, m2) ≠ (chat, mint)) :
    lookupDB (db.map (fun e =>
      if e.1 = (chat, mint) then (e.1, applyFields e.2 f) else e)) c m2 =
      lookupDB db c m2 := by
  induction db with
  | nil => simp [lookupDB]
  | cons e es ih =>
    have hcc : ¬ (c = chat ∧ m2 = mint) := by
      rintro ⟨h1, h2⟩
      exact hne (by rw [h1, h2])
    have hcc2 : ¬ (chat = c ∧ mint = m2) := by
      rintro ⟨h1, h2⟩
      exact hne (by rw [← h1, ← h2])
    by_cases he : e.1 = (chat, mint)
    · simpa [lookupDB, he, hcc, hcc2] using ih
    · by_cases hk : e.1 = (c, m2)
      · simp [lookupDB, he, hk, hcc, hcc2]
      · simpa [lookupDB, he, hk] using ih

/-- C10: upserting field updates for an existing (chat, mint) row
changes exactly the named columns of that row — every column not named
keeps its prior value, every other row is unchanged, and the seeding
insert does not reset the existing row. -/
theorem C10_theorem (db : TrackedDB) (chat : Int) (mint : String)
    (f : FieldUpdates) (r : TrackedRow)
    (h : lookupDB db chat mint = some r) :
    lookupDB (upsert_token db chat mint f) chat mint =
      some (applyFields r f) ∧
    (f.symbol = none → (applyFields r f).symbol = r.symbol) ∧
    (f.media_file_id = none →
      (applyFields r f).media_file_id = r.media_file_id) ∧
    (f.emoji = none → (applyFields r f).emoji = r.emoji) ∧
    (f.total_supply = none →
      (applyFields r f).total_supply = r.total_supply) ∧
    (f.min_buy_usd = none → (applyFields r f).min_buy_usd = r.min_buy_usd) ∧
    (f.socials_json = none →
      (applyFields r f).socials_json = r.socials_json) ∧
    (f.active = none → (applyFields r f).active = r.active) ∧
    (∀ (c : Int) (m2 : String), (c, m2) ≠ (chat, mint) →
      lookupDB (upsert_token db chat mint f) c m2 = lookupDB db c m2) := by
  have hd : upsert_token db chat mint f =
      db.map (fun e =>
        if e.1 = (chat, mint) then (e.1, applyFields e.2 f) else e) := by
    unfold upsert_token
    rw [h]
    simp
  refine ⟨?_, ?_, ?_, ?_, ?_, ?_, ?_, ?_, ?_⟩
  · rw [hd, lookupDB_map_upd, h]
    rfl
  · intro hf
    simp [applyFields, hf]
  · intro hf
    simp [applyFields, hf]
  · intro hf
    simp [applyFields, hf]
  · intro hf
    simp [applyFields, hf]
  · intro hf
    simp [applyFields, hf]
  · intro hf
    simp [applyFields, hf]
  · intro hf
    simp [applyFields, hf]
  · intro c m2 hne
    rw [hd]
    exact lookupDB_map_upd_ne db chat mint f c m2 hne

/-- Witness for C3 at a concrete three-signature batch. -/
theorem C3_witness :
    is_native_sol sellFixRow.mint = false ∧
    strTruthy (SigEntry.mk (some "s3")).signature = some "s3" ∧
    ¬ lookupA ([] : TxMap) sellFixRow.mint = some "s3" ∧
    (pollSellsRow [] sellFixRow
        (SigEntry.mk (some "s3") ::
          [SigEntry.mk (some "s2"), SigEntry.mk (some "s1")])
        sellFixDetail sellFixInfo true =
      pollSellsRow [] sellFixRow [SigEntry.mk (some "s3")] sellFixDetail
        sellFixInfo true ∧
     lookupA (pollSellsRow [] sellFixRow
        (SigEntry.mk (some "s3") ::
          [SigEntry.mk (some "s2"), SigEntry.mk (some "s1")])
        sellFixDetail sellFixInfo true).1 sellFixRow.mint = some "s3" ∧
     ((pollSellsRow [] sellFixRow
        (SigEntry.mk (some "s3") ::
          [SigEntry.mk (some "s2"), SigEntry.mk (some "s1")])
        sellFixDetail sellFixInfo true).2 = [] ∨
      ∃ u amt cp,
        (pollSellsRow [] sellFixRow
          (SigEntry.mk (some "s3") ::
            [SigEntry.mk (some "s2"), SigEntry.mk (some "s1")])
          sellFixDetail sellFixInfo true).2 =
          [.dispatch sellFixRow.mint "s3" u amt cp true])) :=
  ⟨by simp [sellFixRow, is_native_sol], by simp [strTruthy],
   by simp [lookupA],
   C3_theorem [] sellFixRow (SigEntry.mk (some "s3"))
     [SigEntry.mk (some "s2"), SigEntry.mk (some "s1")] sellFixDetail
     sellFixInfo true "s3" (by simp [sellFixRow, is_native_sol])
     (by simp [strTruthy]) (by simp [lookupA])⟩

/-- Witness for C4 at the concrete 30-token transfer. -/
theorem C4_witness :
    ("A" : String) ≠ "B" ∧ (0 : Int) < 30 ∧
    (delta_for_mint
        { pre := [{ mint := "M", owner := some "A", amount := 100,
                    decimals := 0 },
                  { mint := "M", owner := some "B", amount := 50,
                    decimals := 0 }],
          post := [{ mint := "M", owner := some "A", amount := 100 - 30,
                     decimals := 0 },
                   { mint := "M", owner := some "B", amount := 50 + 30,
                     decimals := 0 }] }
        "M" = 0 ∧
     parseSellMeta
        { pre := [{ mint := "M", owner := some "A", amount := 100,
                    decimals := 0 },
                  { mint := "M", owner := some "B", amount := 50,
                    decimals := 0 }],
          post := [{ mint := "M", owner := some "A", amount := 100 - 30,
                     decimals := 0 },
                   { mint := "M", owner := some "B", amount := 50 + 30,
                     decimals := 0 }] }
        "M" =
        some { seller := some "A", amount := ((30 : Int) : ℚ) / (10 : ℚ) ^ (0 : Nat),
               decimals := 0 } ∧
     (∀ (m : TxMap) (p : String) (sub : Sub) (n : Notif) (tr : List Trade)
        (ok : Bool),
       sub.mint = "M" →
       n.meta =
         { pre := [{ mint := "M", owner := some "A", amount := 100,
                     decimals := 0 },
                   { mint := "M", owner := some "B", amount := 50,
                     decimals := 0 }],
           post := [{ mint := "M", owner := some "A", amount := 100 - 30,
                      decimals := 0 },
                    { mint := "M", owner := some "B", amount := 50 + 30,
                      decimals := 0 }] } →
       countDispatch (handleSwapRaydium m p sub n tr ok).2 = 0)) :=
  ⟨by decide, by decide,
   C4_theorem "M" "A" "B" 100 50 30 0 (by decide) (by decide)⟩

/-- Witness for C6 on concrete buy and sell candidates. -/
theorem C6_witness :
    (getTxid (fixNotif "t1" creditMeta (some 100)) = some "t1" ∧
     ¬ lookupA ([] : TxMap) ("r:" ++ "PAIR") = some "t1" ∧
     0 < delta_for_mint (fixNotif "t1" creditMeta (some 100)).meta
       (fixSub "MINT" none none).mint ∧
     resolveUsdRaydium (fixSub "MINT" none none)
       (fixNotif "t1" creditMeta (some 100)) [] "t1"
       |delta_for_mint (fixNotif "t1" creditMeta (some 100)).meta
         (fixSub "MINT" none none).mint| = some 100 ∧
     countDispatch (handleSwapRaydium [] "PAIR" (fixSub "MINT" none none)
        (fixNotif "t1" creditMeta (some 100)) [] true).2 =
       if (100 : ℚ) < effMinBuy (fixSub "MINT" none none).min_buy_usd then 0
       else 1) ∧
    (is_native_sol sellFixRow.mint = false ∧
     strTruthy (SigEntry.mk (some "s1")).signature = some "s1" ∧
     ¬ lookupA ([] : TxMap) sellFixRow.mint = some "s1" ∧
     parse_sell (sellFixDetail "s1") sellFixRow.mint =
       some { seller := some "A", amount := 60, decimals := 0 } ∧
     countDispatch (pollSellsRow [] sellFixRow
        (SigEntry.mk (some "s1") :: []) sellFixDetail sellFixInfo true).2 =
       if (if sellFixInfo.price ≠ 0 then
             ({ seller := some "A", amount := 60,
                decimals := 0 } : SellDetails).amount * sellFixInfo.price
           else 0) < effSellThr sellFixRow.usd_threshold then 0 else 1) := by
  have hg : getTxid (fixNotif "t1" creditMeta (some 100)) = some "t1" := by
    simp [fixNotif, getTxid, strTruthy, pyOrS]
  have hl : ¬ lookupA ([] : TxMap) ("r:" ++ "PAIR") = some "t1" := by
    simp [lookupA]
  have hpos : 0 < delta_for_mint (fixNotif "t1" creditMeta (some 100)).meta
      (fixSub "MINT" none none).mint := by
    have h30 : (30 : ℚ) - 0 = 30 := by norm_num
    simp [fixNotif, fixSub, creditMeta, delta_for_mint, preAmt, h30]
    try norm_num
  have hres : resolveUsdRaydium (fixSub "MINT" none none)
      (fixNotif "t1" creditMeta (some 100)) [] "t1"
      |delta_for_mint (fixNotif "t1" creditMeta (some 100)).meta
        (fixSub "MINT" none none).mint| = some 100 := by
    have h100 : ¬((100 : ℚ) = 0) := by norm_num
    simp [resolveUsdRaydium, swapEventsUsd, fixNotif, pyOrQ, h100]
  have hn : is_native_sol sellFixRow.mint = false := by
    simp [sellFixRow, is_native_sol]
  have hs : strTruthy (SigEntry.mk (some "s1")).signature = some "s1" := by
    simp [strTruthy]
  have hl2 : ¬ lookupA ([] : TxMap) sellFixRow.mint = some "s1" := by
    simp [lookupA]
  have hparse : parse_sell (sellFixDetail "s1") sellFixRow.mint =
      some { seller := some "A", amount := 60, decimals := 0 } := by
    simp [parse_sell, parseSellMeta, sellFixDetail, sellFixRow, preAmt]
    norm_num
  exact ⟨⟨hg, hl, hpos, hres,
          C6_theorem.1 [] "PAIR" (fixSub "MINT" none none)
            (fixNotif "t1" creditMeta (some 100)) [] true "t1" 100 hg hl hpos
            hres⟩,
         ⟨hn, hs, hl2, hparse,
          C6_theorem.2 [] sellFixRow (SigEntry.mk (some "s1")) []
            sellFixDetail sellFixInfo true "s1"
            { seller := some "A", amount := 60, decimals := 0 } hn hs hl2
            hparse⟩⟩

/-- Witness for C7 at a concrete unpriced candidate. -/
theorem C7_witness :
    (fixSub "MINT" none none).price_usd.getD 0 = 0 ∧
    countDispatch
      (handleBuyPumpfun [] "MINT" (fixSub "MINT" none none)
        (fixNotif "p1" creditMeta none) (fetchTokenInfoBuy none none)
        true).2.2 = 0 :=
  ⟨rfl,
   C7_theorem.2.2.2 [] "MINT" (fixSub "MINT" none none)
     (fixNotif "p1" creditMeta none) true rfl⟩

/-- Witness for C8 at a concrete pending subscription and pair. -/
theorem C8_witness :
    lookupA hoFixSt.p_subs "MINT" = some hoFixSub ∧
    strTruthy hoFixPair.pairAddress = some "ADDR" ∧
    (lookupA (handoffStep hoFixSt "MINT" (some hoFixPair)).p_subs "MINT" =
       none ∧
     (∀ pr2, handoffStep (handoffStep hoFixSt "MINT" (some hoFixPair))
        "MINT" pr2 = handoffStep hoFixSt "MINT" (some hoFixPair)) ∧
     lookupA (handoffStep hoFixSt "MINT" (some hoFixPair)).r_subs "ADDR" =
       some (refreshFromPair hoFixSub hoFixPair) ∧
     (refreshFromPair hoFixSub hoFixPair).min_buy_usd =
       hoFixSub.min_buy_usd ∧
     (refreshFromPair hoFixSub hoFixPair).media_file_id =
       hoFixSub.media_file_id ∧
     (refreshFromPair hoFixSub hoFixPair).emoji = hoFixSub.emoji ∧
     (refreshFromPair hoFixSub hoFixPair).socials_json =
       hoFixSub.socials_json ∧
     (refreshFromPair hoFixSub hoFixPair).chat_id = hoFixSub.chat_id ∧
     (refreshFromPair hoFixSub hoFixPair).mint = hoFixSub.mint ∧
     (∀ s, strTruthy hoFixSub.symbol = some s →
       (refreshFromPair hoFixSub hoFixPair).symbol = some s) ∧
     (refreshFromPair hoFixSub hoFixPair).price_usd =
       some (hoFixPair.priceUsd.getD 0)) :=
  ⟨by simp [hoFixSt, lookupA], by simp [hoFixPair, strTruthy],
   C8_theorem hoFixSt "MINT" hoFixPair hoFixSub "ADDR"
     (by simp [hoFixSt, lookupA]) (by simp [hoFixPair, strTruthy])⟩

/-- Witness for C9 on concrete zero-threshold subscriptions. -/
theorem C9_witness :
    ((-7 : ℚ) ≤ 0 ∧ effSellThr (some (-7)) = DEFAULT_WHALE_USD) ∧
    ((fixSub "MINT" (some 0) none).min_buy_usd = some 0 ∧
     Action.dispatch "r:PAIR" "t1" 100 (some 30) none true ∈
       (handleSwapRaydium [] "PAIR" (fixSub "MINT" (some 0) none)
         (fixNotif "t1" creditMeta (some 100)) [] true).2 ∧
     DEFAULT_MIN_BUY_USD ≤ 100) ∧
    (({ chat_id := 1, mint := "SM", media_file_id := none, symbol := none,
        usd_threshold := some 0 } : SellRow).usd_threshold = some 0 ∧
     (0 : ℚ) ≤ 0 ∧
     Action.dispatch "SM" "s1" 6000 (some 60) (some "A") true ∈
       (pollSellsRow []
         { chat_id := 1, mint := "SM", media_file_id := none,
           symbol := none, usd_threshold := some 0 }
         [SigEntry.mk (some "s1")] sellFixDetail sellFixInfo true).2 ∧
     DEFAULT_WHALE_USD ≤ 6000) := by
  have hd : ¬((30 : ℚ) ≤ 0) := by norm_num
  have hu : ¬((100 : ℚ) < 5) := by norm_num
  have hmem1 : Action.dispatch "r:PAIR" "t1" 100 (some 30) none true ∈
      (handleSwapRaydium [] "PAIR" (fixSub "MINT" (some 0) none)
        (fixNotif "t1" creditMeta (some 100)) [] true).2 := by
    simp [handleSwapRaydium, fixSub, fixNotif, creditMeta, getTxid,
      strTruthy, pyOrS, lookupA, insertA, delta_for_mint, preAmt,
      resolveUsdRaydium, swapEventsUsd, pyOrQ, effMinBuy,
      DEFAULT_MIN_BUY_USD, hd, hu]
  have h0 : (100 : ℚ) - 40 = 60 := by norm_num
  have h1 : ¬((60 : ℚ) * 100 < 1000) := by norm_num
  have h2 : (60 : ℚ) * 100 = 6000 := by norm_num
  have h3 : ¬((6000 : ℚ) < 1000) := by norm_num
  have hmem2 : Action.dispatch "SM" "s1" 6000 (some 60) (some "A") true ∈
      (pollSellsRow []
        { chat_id := 1, mint := "SM", media_file_id := none, symbol := none,
          usd_threshold := some 0 }
        [SigEntry.mk (some "s1")] sellFixDetail sellFixInfo true).2 := by
    simp [pollSellsRow, sellFixDetail, sellFixInfo, is_native_sol,
      strTruthy, lookupA, insertA, parse_sell, parseSellMeta, preAmt,
      effSellThr, DEFAULT_WHALE_USD, h0, h1, h2, h3]
  refine ⟨⟨by norm_num, C9_theorem.2.2.1 (-7) (by norm_num)⟩,
          ⟨rfl, hmem1, ?_⟩, ⟨rfl, le_refl 0, hmem2, ?_⟩⟩
  · exact C9_theorem.2.2.2.2.1 [] "PAIR" (fixSub "MINT" (some 0) none)
      (fixNotif "t1" creditMeta (some 100)) [] true "r:PAIR" "t1" 100
      (some 30) none true rfl hmem1
  · exact C9_theorem.2.2.2.2.2 []
      { chat_id := 1, mint := "SM", media_file_id := none, symbol := none,
        usd_threshold := some 0 }
      [SigEntry.mk (some "s1")] sellFixDetail sellFixInfo true 0 "SM" "s1"
      6000 (some 60) (some "A") true rfl (le_refl 0) hmem2

/-- Witness for C10 on a concrete two-row table. -/
theorem C10_witness :
    lookupDB dbFix 1 "M" = some rowFix ∧
    (lookupDB (upsert_token dbFix 1 "M" updFix) 1 "M" =
       some (applyFields rowFix updFix) ∧
     (updFix.symbol = none → (applyFields rowFix updFix).symbol =
       rowFix.symbol) ∧
     (updFix.media_file_id = none →
       (applyFields rowFix updFix).media_file_id = rowFix.media_file_id) ∧
     (updFix.emoji = none → (applyFields rowFix updFix).emoji =
       rowFix.emoji) ∧
     (updFix.total_supply = none →
       (applyFields rowFix updFix).total_supply = rowFix.total_supply) ∧
     (updFix.min_buy_usd = none →
       (applyFields rowFix updFix).min_buy_usd = rowFix.min_buy_usd) ∧
     (updFix.socials_json = none →
       (applyFields rowFix updFix).socials_json = rowFix.socials_json) ∧
     (updFix.active = none → (applyFields rowFix updFix).active =
       rowFix.active) ∧
     (∀ (c : Int) (m2 : String), (c, m2) ≠ (1, "M") →
       lookupDB (upsert_token dbFix 1 "M" updFix) c m2 =
         lookupDB dbFix c m2)) :=
  ⟨by simp [dbFix, lookupDB],
   C10_theorem dbFix 1 "M" updFix rowFix (by simp [dbFix, lookupDB])⟩
end Sentribot







